import Mathlib

/-!
Shallow embedding of the multi-tenant backend (users, tenants, folders, tags,
refresh tokens) from `src/`, together with theorems settling the specification
claims about it.

The persistent store is modelled as an explicit `DB` record of tables; each
service function from the source is translated to a Lean function that threads
the store.  Operations that can raise return `Except AppError`; operations
whose Python original commits intermediate rows before a later raise return
the mutated store alongside the error, mirroring the source's commit-per-step
session usage.  Python truthiness tests (`if folder_id:`, `if user.tenants:`)
are translated explicitly.
-/

namespace SiaSpec

/-- Python truthiness of an optional integer (`None` and `0` are falsy). -/
def optNatTruthy (o : Option Nat) : Bool := o.getD 0 != 0

/-- Python truthiness of an optional string (`None` and `""` are falsy). -/
def optStrTruthy (o : Option String) : Bool := o.getD "" != ""

/-- Entity row (`entity(id)`), the taggable identity record. -/
structure Entity where
  id : Nat
deriving Repr, DecidableEq

/-- Tag row (`tag(id, name, tenant_id)`). -/
structure Tag where
  id : Nat
  name : String
  tenant_id : Nat
deriving Repr, DecidableEq

/-- Role row (`role(id, name)`); the fixed role set includes "admin", "owner", "user". -/
structure Role where
  id : Nat
  name : String
deriving Repr, DecidableEq

/-- Tenant row (`tenant(id, name, entity_id)`). -/
structure Tenant where
  id : Nat
  name : String
  entity_id : Nat
deriving Repr, DecidableEq

/-- User row (`user(id, username, hashed_password, role_id, entity_id)`).
Audit/profile columns not touched by the claims are omitted. -/
structure User where
  id : Nat
  username : String
  hashed_password : String
  role_id : Nat
  entity_id : Nat
deriving Repr, DecidableEq

/-- Folder row (`folder(id, name, tenant_id, parent_id, entity_id)`),
from `src/folder/models.py`. -/
structure Folder where
  id : Nat
  name : String
  tenant_id : Nat
  parent_id : Option Nat
  entity_id : Nat
deriving Repr, DecidableEq

/-- The persistent store: one list per table, plus autoincrement counters. -/
structure DB where
  entities : List Entity
  tags : List Tag
  roles : List Role
  tenants : List Tenant
  users : List User
  folders : List Folder
  /-- `tenant_user(tenant_id, user_id)` association rows. -/
  memberships : List (Nat × Nat)
  /-- `entity_tag(entity_id, tag_id)` association rows. -/
  entityTags : List (Nat × Nat)
  nextEntityId : Nat
  nextTagId : Nat
  nextUserId : Nat
  nextFolderId : Nat
deriving Repr, DecidableEq

/-- The typed errors raised by the embedded services.  `NoneTypeCrash` stands
for a Python `AttributeError` on a `None` result (not a typed domain error). -/
inductive AppError where
  | UserNotFound
  | UsernameTaken
  | UserInvalidPassword
  | UserTenantNotAssigned
  | IncorrectUserOrPassword
  | TenantNotFound
  | FolderNotFound
  | FolderNameTaken
  | InvalidRefreshToken
  | NoneTypeCrash
deriving Repr, DecidableEq

/-- Modelled from the spec: the external password-hashing library (passlib
bcrypt, `src/auth/utils.py:get_password_hash`) is abstracted as a deterministic
injective tagging of the plain password. -/
def get_password_hash (password : String) : String := "bcrypt-hash:" ++ password

/-- `src/auth/utils.py:verify_password` — succeeds exactly when the plain
password hashes to the stored hash (abstraction of `pwd_context.verify`). -/
def verify_password (plain_password hashed_password : String) : Bool :=
  get_password_hash plain_password == hashed_password

/-- Modelled from the spec: `src/entity/service.py` is not in the source tree;
`createEntity() → Entity` "always succeeds, allocates a fresh identity" and the
owner row stores the returned id (spec section 4.1). -/
def create_entity_auto (db : DB) : Entity × DB :=
  let e : Entity := ⟨db.nextEntityId⟩
  (e, { db with entities := db.entities ++ [e], nextEntityId := db.nextEntityId + 1 })

/-- `src/user/service.py:check_user_exists` — raises `UserNotFound` when the id
does not resolve. -/
def check_user_exists (db : DB) (user_id : Nat) : Except AppError Unit :=
  match db.users.find? (fun u => u.id == user_id) with
  | some _ => .ok ()
  | none => .error .UserNotFound

/-- `src/user/service.py:check_username_exists` — raises `UsernameTaken` when a
user with that username exists, unless the optional `user_id` names the very
user that was found (the object being updated is excluded).  `if user_id and
user_id != user.id` / `if not user_id` use Python truthiness. -/
def check_username_exists (db : DB) (username : Option String)
    (user_id : Option Nat) : Except AppError Unit :=
  match db.users.find? (fun u => username == some u.username) with
  | some u =>
    if optNatTruthy user_id && user_id != some u.id then .error .UsernameTaken
    else if !optNatTruthy user_id then .error .UsernameTaken
    else .ok ()
  | none => .ok ()

/-- Python `str.strip()`: drop leading and trailing whitespace.  Stated over
the string's character list so that it computes by kernel reduction (the
byte-position recursion of `String.trim` does not). -/
def pyStrip (s : String) : String :=
  ⟨((s.data.dropWhile Char.isWhitespace).reverse.dropWhile Char.isWhitespace).reverse⟩

/-- `src/user/service.py:check_invalid_password` — `valid = len(password.strip()) >= 8`. -/
def check_invalid_password (password : String) : Except AppError Unit :=
  if 8 ≤ (pyStrip password).length then .ok () else .error .UserInvalidPassword

/-- `src/user/service.py:get_user` — `check_user_exists` then fetch. -/
def get_user (db : DB) (user_id : Nat) : Except AppError User :=
  match check_user_exists db user_id with
  | .error e => .error e
  | .ok () =>
    match db.users.find? (fun u => u.id == user_id) with
    | some u => .ok u
    | none => .error .NoneTypeCrash

/-- `src/user/schemas.py:UserCreate` — payload fields `username`, `password`. -/
structure UserCreate where
  username : String
  password : String
deriving Repr, DecidableEq

/-- Field names declared on `UserCreate` in `src/user/schemas.py`. -/
def userCreateFields : List String := ["username", "password"]

/-- Field-level validation of a `UserCreate` payload: pydantic requires both
declared fields and `model_config = {"extra": "forbid"}` rejects any other key. -/
def userCreateAccepts (fields : List String) : Bool :=
  (userCreateFields.all fun f => fields.contains f) &&
    (fields.all fun f => userCreateFields.contains f)

/-- `src/user/service.py:create_user` — username and password checks, then the
default role named "user" is looked up, an entity is created, the password is
hashed and the user row is inserted with `role_id = default_role.id`.  The
caller never supplies a role.  If the "user" role were absent, Python would
crash dereferencing `default_role.id` after the entity was already committed. -/
def create_user (db : DB) (user : UserCreate) : Except AppError User × DB :=
  match check_username_exists db (some user.username) none with
  | .error e => (.error e, db)
  | .ok () =>
  match check_invalid_password user.password with
  | .error e => (.error e, db)
  | .ok () =>
  let default_role? := db.roles.find? (fun r => r.name == "user")
  let (entity, db1) := create_entity_auto db
  let hashed := get_password_hash user.password
  match default_role? with
  | none => (.error .NoneTypeCrash, db1)
  | some default_role =>
    let db_user : User :=
      { id := db1.nextUserId, username := user.username, hashed_password := hashed,
        role_id := default_role.id, entity_id := entity.id }
    (.ok db_user,
     { db1 with users := db1.users ++ [db_user], nextUserId := db1.nextUserId + 1 })

/-- `src/auth/utils.py:get_user_by_username` — raises `UserNotFound` when no
user carries the username. -/
def get_user_by_username (db : DB) (username : String) : Except AppError User :=
  match db.users.find? (fun u => u.username == username) with
  | some u => .ok u
  | none => .error .UserNotFound

/-- `src/auth/utils.py:authenticate_user` — looks the user up by username
(raising `UserNotFound` if absent), then raises `IncorrectUserOrPassword` when
the password hash does not verify. -/
def authenticate_user (db : DB) (username password : String) : Except AppError User :=
  match get_user_by_username db username with
  | .error e => .error e
  | .ok u =>
    if !verify_password password u.hashed_password then .error .IncorrectUserOrPassword
    else .ok u

/-- Modelled from the spec: `src/tenant/utils.py` is not in the source tree;
per spec section 4.2 folder creation "fails `TenantNotFound` if tenant_id is
invalid", and `src/tenant/service.py` uses `check_tenant_exists` as the
existence gate. -/
def check_tenant_exists (db : DB) (tenant_id : Nat) : Except AppError Unit :=
  if db.tenants.any (fun t => t.id == tenant_id) then .ok () else .error .TenantNotFound

/-- `src/tag/schemas.py:TagCreate` payload (fields used by the services). -/
structure TagCreate where
  name : String
  tenant_id : Nat
deriving Repr, DecidableEq

/-- `src/tag/service.py:create_tag` — inserts the tag row unconditionally; the
name-uniqueness check is absent (only a commented-out TODO in the source). -/
def create_tag (db : DB) (tag : TagCreate) : Tag × DB :=
  let db_tag : Tag := { id := db.nextTagId, name := tag.name, tenant_id := tag.tenant_id }
  (db_tag, { db with tags := db.tags ++ [db_tag], nextTagId := db.nextTagId + 1 })

/-- `src/folder/models.py:Folder.add_tag` — appends the tag to the folder
entity's tags, i.e. inserts an `entity_tag` association row. -/
def Folder.add_tag (db : DB) (f : Folder) (t : Tag) : DB :=
  { db with entityTags := db.entityTags ++ [(f.entity_id, t.id)] }

/-- `src/folder/service.py:check_folder_exist` — raises `FolderNotFound` when
the id does not resolve. -/
def check_folder_exist (db : DB) (folder_id : Nat) : Except AppError Unit :=
  match db.folders.find? (fun f => f.id == folder_id) with
  | some _ => .ok ()
  | none => .error .FolderNotFound

/-- `src/folder/service.py:check_folder_name_taken` — raises `FolderNameTaken`
when some folder matches the given name and tenant; when the optional
`folder_id` is truthy, the folder with that id is excluded from the match (the
object being updated).  The name and tenant parameters are compared by SQL
equality, so a `None` value matches no row. -/
def check_folder_name_taken (db : DB) (folder_name : Option String)
    (tenant_id : Option Nat) (folder_id : Option Nat) : Except AppError Unit :=
  let taken := db.folders.filter fun f =>
    folder_name == some f.name && tenant_id == some f.tenant_id
  let taken := if optNatTruthy folder_id
    then taken.filter (fun f => some f.id != folder_id) else taken
  if taken.isEmpty then .ok () else .error .FolderNameTaken

/-- `src/folder/schemas.py:FolderCreate` payload: a name, a tenant and an
optional parent (the schema file is only exercised through these fields). -/
structure FolderCreate where
  name : String
  tenant_id : Nat
  parent_id : Option Nat := none
deriving Repr, DecidableEq

/-- `src/folder/service.py:create_root_folder` — commits a fresh entity and the
"/" folder for the tenant, then attaches an auto-generated identifying tag. -/
def create_root_folder (db : DB) (tenant_id : Nat) : Folder × DB :=
  let (entity, db1) := create_entity_auto db
  let db_folder : Folder :=
    { id := db1.nextFolderId, name := "/", tenant_id := tenant_id,
      parent_id := none, entity_id := entity.id }
  let db2 := { db1 with folders := db1.folders ++ [db_folder],
                        nextFolderId := db1.nextFolderId + 1 }
  let formatted_name := "root-tenant-" ++ toString tenant_id
  let (t, db3) := create_tag db2
    { name := "folder-" ++ formatted_name ++ "-tag", tenant_id := db_folder.tenant_id }
  (db_folder, Folder.add_tag db3 db_folder t)

/-- `src/folder/service.py:get_root_folder` — returns the folder named "/" with
null parent for the tenant, creating it when absent. -/
def get_root_folder (db : DB) (tenant_id : Nat) : Folder × DB :=
  match db.folders.find? (fun f =>
      f.name == "/" && f.tenant_id == tenant_id && f.parent_id.isNone) with
  | some root_folder => (root_folder, db)
  | none => create_root_folder db tenant_id

/-- `src/folder/service.py:create_folder` — tenant and name pre-checks, then a
fresh entity is committed, the tenant's root folder is fetched (created if
absent), the supplied parent is checked for existence (defaulting to the root
when falsy), and finally the folder row and its auto-generated descriptive tag
are committed.  An error after the pre-checks leaves the already committed
intermediate rows in the store, as in the source's commit-per-step session. -/
def create_folder (db : DB) (folder : FolderCreate) : Except AppError Folder × DB :=
  match check_tenant_exists db folder.tenant_id with
  | .error e => (.error e, db)
  | .ok () =>
  match check_folder_name_taken db (some folder.name) (some folder.tenant_id) none with
  | .error e => (.error e, db)
  | .ok () =>
  let (entity, db1) := create_entity_auto db
  let (root_folder, db2) := get_root_folder db1 folder.tenant_id
  let parentCheck : Except AppError (Option Nat) :=
    if optNatTruthy folder.parent_id then
      match check_folder_exist db2 (folder.parent_id.getD 0) with
      | .error e => .error e
      | .ok () => .ok folder.parent_id
    else .ok (some root_folder.id)
  match parentCheck with
  | .error e => (.error e, db2)
  | .ok parent_id =>
    let db_folder : Folder :=
      { id := db2.nextFolderId, name := folder.name, tenant_id := folder.tenant_id,
        parent_id := parent_id, entity_id := entity.id }
    let db3 := { db2 with folders := db2.folders ++ [db_folder],
                          nextFolderId := db2.nextFolderId + 1 }
    match db3.tenants.find? (fun t => t.id == db_folder.tenant_id) with
    | none => (.error .NoneTypeCrash, db3)
    | some tenant =>
      let formatted_name :=
        (tenant.name.toLower.replace " " "-") ++ "-" ++
          (db_folder.name.toLower.replace " " "-")
      let (folder_tag, db4) := create_tag db3
        { name := "folder-" ++ formatted_name ++ "-tag", tenant_id := db_folder.tenant_id }
      (.ok db_folder, Folder.add_tag db4 db_folder folder_tag)

/-- `src/folder/service.py:get_folder` — raises `FolderNotFound` when absent. -/
def get_folder (db : DB) (folder_id : Nat) : Except AppError Folder :=
  match db.folders.find? (fun f => f.id == folder_id) with
  | some f => .ok f
  | none => .error .FolderNotFound

/-- Modelled from the spec: `src/user/models.py` is not in the source tree.
The spec's fixed role set has a global-admin role; `src/user/service.py`
(`get_devices`) tests admin as `role_id != 1` and the tests name user 1 with
role 1 the admin, so `is_admin` is `role_id == 1`. -/
def User.is_admin (u : User) : Bool := u.role_id == 1

/-- Modelled from the spec: the `User.tenants` relationship of
`src/user/models.py` (not in the source tree) joins the tenant table through
the `tenant_user` association rows. -/
def User.tenants (db : DB) (u : User) : List Tenant :=
  db.tenants.filter fun t => db.memberships.contains (t.id, u.id)

/-- Modelled from the spec: `User.get_tenants_ids` of `src/user/models.py`
(not in the source tree) — the ids of the user's tenants. -/
def User.get_tenants_ids (db : DB) (u : User) : List Nat :=
  (User.tenants db u).map Tenant.id

/-- `src/folder/service.py:get_folders` — the admin sees the select of all
folders with null parent; a non-admin with tenants sees the select restricted
to their tenant ids; a non-admin with no tenants gets `UserTenantNotAssigned`.
The unreachable fall-through of the source (tenants non-empty but ids empty)
returns Python `None`, embedded as `Option`. -/
def get_folders (db : DB) (user_id : Nat) : Except AppError (Option (List Folder)) :=
  match get_user db user_id with
  | .error e => .error e
  | .ok user =>
    if user.is_admin then
      .ok (some (db.folders.filter fun f => f.parent_id.isNone))
    else
      if !(User.tenants db user).isEmpty then
        let tenant_ids := User.get_tenants_ids db user
        if !tenant_ids.isEmpty then
          .ok (some (db.folders.filter fun f =>
            tenant_ids.contains f.tenant_id && f.parent_id.isNone))
        else .ok none
      else .error .UserTenantNotAssigned

/-- `src/folder/schemas.py:FolderUpdate` patch: optional name, tenant and tag
list (`subfolders`/`devices` are popped unapplied by `update_folder` — "patch:
momentarily ignoring these attributes" — so carry no behavior). -/
structure FolderUpdate where
  name : Option String := none
  tenant_id : Option Nat := none
  tags : Option (List Tag) := none
deriving Repr, DecidableEq

/-- Modelled from the spec: `src/tenant/utils.py:filter_tag_ids` is not in the
source tree; per the tag tenant-scoping invariant it keeps the ids of the
supplied tags that belong to the given tenant. -/
def filter_tag_ids (tags : List Tag) (tenant_id : Nat) : List Nat :=
  (tags.filter fun t => t.tenant_id == tenant_id).map Tag.id

/-- Modelled from the spec: `src/entity/service.py:update_entity_tags` is not
in the source tree; per the spec's update-with-tag-reassignment it replaces the
entity's tag associations with the supplied tag ids. -/
def update_entity_tags (db : DB) (entity_id : Nat) (tag_ids : List Nat) : DB :=
  { db with entityTags :=
      db.entityTags.filter (fun p => p.1 != entity_id) ++
        tag_ids.map (fun t => (entity_id, t)) }

/-- `src/folder/service.py:update_folder` — fetches the folder (raising
`FolderNotFound`), checks the patch's tenant when truthy, runs
`check_folder_name_taken` against the patch's name and tenant excluding the
folder's own id, reassigns the entity's tags when the patch carries truthy
tags, and applies the set name/tenant fields to the row. -/
def update_folder (db : DB) (db_folder : Folder) (updated_folder : FolderUpdate) :
    Except AppError Folder × DB :=
  match get_folder db db_folder.id with
  | .error e => (.error e, db)
  | .ok folder =>
  match (if optNatTruthy updated_folder.tenant_id
         then check_tenant_exists db (updated_folder.tenant_id.getD 0)
         else .ok ()) with
  | .error e => (.error e, db)
  | .ok () =>
  match check_folder_name_taken db updated_folder.name updated_folder.tenant_id
      (some folder.id) with
  | .error e => (.error e, db)
  | .ok () =>
    let db1 := if !(updated_folder.tags.getD []).isEmpty then
        update_entity_tags db folder.entity_id
          (filter_tag_ids (updated_folder.tags.getD []) folder.tenant_id)
      else db
    let new_folder : Folder :=
      { folder with name := updated_folder.name.getD folder.name,
                    tenant_id := updated_folder.tenant_id.getD folder.tenant_id }
    let newFolders := db1.folders.map (fun f => if f.id == folder.id then new_folder else f)
    let db2 := { db1 with folders := newFolders }
    (.ok new_folder, db2)

/-- `src/user/schemas.py:UserUpdate` patch, restricted to the fields that reach
the user row's update in `src/user/service.py:update_user` (username, password,
role_id, disabled; the schema's `tenant_ids`/`tags`/`last_login` extras are not
row columns and are never set by the claims under study). -/
structure UserUpdate where
  username : Option String := none
  password : Option String := none
  role_id : Option Nat := none
  disabled : Option Bool := none
deriving Repr, DecidableEq

/-- `src/user/service.py:update_user` — checks the user exists, runs
`check_username_exists` with the patch's username excluding the user's own id,
validates and rehashes the password when the patch carries a truthy one, and
applies the set fields to the row. -/
def update_user (db : DB) (db_user : User) (updated_user : UserUpdate) :
    Except AppError User × DB :=
  match check_user_exists db db_user.id with
  | .error e => (.error e, db)
  | .ok () =>
  match check_username_exists db updated_user.username (some db_user.id) with
  | .error e => (.error e, db)
  | .ok () =>
  match (if optStrTruthy updated_user.password
         then check_invalid_password (updated_user.password.getD "")
         else .ok ()) with
  | .error e => (.error e, db)
  | .ok () =>
    let new_hash := if optStrTruthy updated_user.password
      then get_password_hash (updated_user.password.getD "")
      else db_user.hashed_password
    let new_user : User :=
      { db_user with username := updated_user.username.getD db_user.username,
                     role_id := updated_user.role_id.getD db_user.role_id,
                     hashed_password := new_hash }
    let newUsers := db.users.map (fun u => if u.id == db_user.id then new_user else u)
    (.ok new_user, { db with users := newUsers })

/-- RefreshToken row (`refresh_token(id, user_id, value, expires_at,
revoked_at, replaced_by)`), spec section 3. -/
structure RefreshToken where
  id : Nat
  user_id : Nat
  value : Nat
  expires_at : Nat
  revoked_at : Option Nat := none
  replaced_by : Option Nat := none
deriving Repr, DecidableEq

/-- The refresh-token table with its autoincrement counter. -/
structure TokenStore where
  tokens : List RefreshToken
  nextId : Nat
deriving Repr, DecidableEq

/-- Modelled from the spec: `src/auth/dependencies.py:valid_refresh_token` is
not in the source tree; per spec section 4.4 the presented value is looked up
and rejected with `InvalidRefreshToken` when "not found, already revoked, or
expired", and a rotated-away token is terminal ("terminal once revoked or
superseded"), so a non-null `replaced_by` also rejects. -/
def valid_refresh_token (st : TokenStore) (value now : Nat) :
    Except AppError RefreshToken :=
  match st.tokens.find? (fun t => t.value == value) with
  | none => .error .InvalidRefreshToken
  | some t =>
    if t.revoked_at.isNone && t.replaced_by.isNone && now < t.expires_at
    then .ok t else .error .InvalidRefreshToken

/-- A fresh opaque token value, distinct from every stored one (abstraction of
the spec's "opaque random value" generation). -/
def fresh_token_value (st : TokenStore) : Nat :=
  st.tokens.foldr (fun t m => max t.value m) 0 + 1

/-- Modelled from the spec: `src/auth/service.py:create_refresh_token` is not
in the source tree; per spec section 4.4 it persists a new opaque token value
for the user and, when called from rotation with the old token, "marks the old
token `replaced_by = new`". -/
def create_refresh_token (st : TokenStore) (user_id now lifetime : Nat)
    (old : Option RefreshToken) : Nat × TokenStore :=
  let v := fresh_token_value st
  let newTok : RefreshToken :=
    { id := st.nextId, user_id := user_id, value := v, expires_at := now + lifetime }
  let marked := match old with
    | none => st.tokens
    | some o => st.tokens.map fun t =>
        if t.id == o.id then { t with replaced_by := some newTok.id } else t
  (v, { tokens := marked ++ [newTok], nextId := st.nextId + 1 })

/-- `src/auth/router.py:refresh_tokens` — validates the presented refresh token
and issues the replacement through `create_refresh_token`, passing the old
token so it is marked superseded (the rotation step; access-token issuance is
stateless and not part of the store transition). -/
def rotate (st : TokenStore) (value now lifetime : Nat) :
    Except AppError (Nat × TokenStore) :=
  match valid_refresh_token st value now with
  | .error e => .error e
  | .ok refresh_token =>
    .ok (create_refresh_token st refresh_token.user_id now lifetime (some refresh_token))

/-! Concrete store fixtures used by counterexamples and witnesses. -/

/-- A populated store: two tenants, an admin, a member of tenant 1, a user with
no tenant, two roots, two subfolders of tenant 1, and one tag. -/
def dbW : DB :=
  { entities := [⟨1⟩, ⟨2⟩, ⟨3⟩, ⟨4⟩, ⟨5⟩, ⟨6⟩, ⟨7⟩, ⟨8⟩, ⟨9⟩],
    tags := [⟨1, "dup", 1⟩],
    roles := [⟨1, "admin"⟩, ⟨2, "owner"⟩, ⟨3, "user"⟩],
    tenants := [⟨1, "tenant1", 1⟩, ⟨2, "tenant2", 2⟩],
    users := [⟨1, "admin@sia.com", get_password_hash "adminpass", 1, 3⟩,
              ⟨2, "alice@sia.com", get_password_hash "alicepass", 3, 4⟩,
              ⟨3, "bob@sia.com", get_password_hash "bobpass", 3, 5⟩],
    folders := [⟨1, "/", 1, none, 6⟩, ⟨2, "/", 2, none, 7⟩,
                ⟨3, "a", 1, some 1, 8⟩, ⟨4, "b", 1, some 1, 9⟩],
    memberships := [(1, 2)],
    entityTags := [],
    nextEntityId := 10, nextTagId := 2, nextUserId := 4, nextFolderId := 5 }

/-- A minimal store for the folder-creation atomicity claim: one tenant and no
folders at all. -/
def db7 : DB :=
  { entities := [⟨1⟩], tags := [], roles := [⟨1, "admin"⟩, ⟨3, "user"⟩],
    tenants := [⟨1, "tenant1", 1⟩], users := [], folders := [],
    memberships := [], entityTags := [],
    nextEntityId := 2, nextTagId := 1, nextUserId := 1, nextFolderId := 1 }

/-! ## C5 — idempotence of `get_root_folder` -/

/-- C5: for every tenant, `get_root_folder` called twice returns the same
folder and the second call leaves the store untouched — no new folder, entity
or tag (the full result, folder and store, of the second call equals that of
the first). -/
theorem get_root_folder_idempotent (db : DB) (tenant_id : Nat) :
    get_root_folder (get_root_folder db tenant_id).2 tenant_id =
      get_root_folder db tenant_id := by
  cases hfind : db.folders.find? (fun f =>
      f.name == "/" && f.tenant_id == tenant_id && f.parent_id.isNone) with
  | some root =>
      simp [get_root_folder, hfind]
  | none =>
      simp [get_root_folder, hfind, create_root_folder, create_entity_auto,
            create_tag, Folder.add_tag, List.find?_append]

/-! ## C3 — login failure causes are distinguishable -/

/-- C3 counterexample: on a concrete store, an unknown username fails with
`UserNotFound` while a known username with a wrong password fails with
`IncorrectUserOrPassword` — two distinct errors, refuting that both causes
yield the same `InvalidCredentials` error. -/
theorem authenticate_user_distinct_errors_cex :
    authenticate_user dbW "missing@sia.com" "whatever123" = .error .UserNotFound ∧
    authenticate_user dbW "alice@sia.com" "wrongpass" = .error .IncorrectUserOrPassword ∧
    AppError.UserNotFound ≠ AppError.IncorrectUserOrPassword := by
  refine ⟨rfl, rfl, by decide⟩

/-- C3 amended: an unknown username fails with `UserNotFound` (raised by
`get_user_by_username`), while a known username whose password does not verify
fails with `IncorrectUserOrPassword`; the two failure causes carry different
errors and are therefore distinguishable to the caller. -/
theorem authenticate_user_error_cases (db : DB) (username password : String) :
    (db.users.find? (fun u => u.username == username) = none →
      authenticate_user db username password = .error .UserNotFound) ∧
    (∀ u, db.users.find? (fun u => u.username == username) = some u →
      verify_password password u.hashed_password = false →
      authenticate_user db username password = .error .IncorrectUserOrPassword) := by
  constructor
  · intro hnone
    simp [authenticate_user, get_user_by_username, hnone]
  · intro u hu hv
    simp [authenticate_user, get_user_by_username, hu, hv]

/-- C3 amended, witness at a concrete store. -/
theorem authenticate_user_error_cases_witness :
    authenticate_user dbW "missing@sia.com" "pw123456" = .error .UserNotFound ∧
    authenticate_user dbW "bob@sia.com" "notbobpass" = .error .IncorrectUserOrPassword := by
  refine ⟨(authenticate_user_error_cases dbW "missing@sia.com" "pw123456").1 (by rfl),
    (authenticate_user_error_cases dbW "bob@sia.com" "notbobpass").2
      ⟨3, "bob@sia.com", get_password_hash "bobpass", 3, 5⟩ (by rfl) (by decide)⟩

/-! ## C4 — tag creation does not enforce name uniqueness -/

/-- C4 counterexample: `dbW` already holds a tag named "dup" in tenant 1, yet
`create_tag` with that same name and tenant succeeds (it is infallible) and the
store afterwards holds two tags named "dup" in tenant 1 — no `Conflict` is
raised and a second tag with the taken name is created. -/
theorem create_tag_duplicate_cex :
    ((create_tag dbW { name := "dup", tenant_id := 1 }).2.tags.filter
        (fun t => t.name == "dup" && t.tenant_id == 1)).length = 2 ∧
    (create_tag dbW { name := "dup", tenant_id := 1 }).1 =
      { id := 2, name := "dup", tenant_id := 1 } := by
  refine ⟨by rfl, by rfl⟩

/-- C4 amended: `create_tag` performs no name-uniqueness check (the check is
only a commented-out TODO in the source): when a tag with the requested name
already exists in the requested tenant, creation still succeeds and the store
afterwards holds at least two tags with that name in that tenant, the fresh one
among them. -/
theorem create_tag_allows_duplicates (db : DB) (tc : TagCreate) (t : Tag)
    (ht : t ∈ db.tags) (hn : t.name = tc.name) (hten : t.tenant_id = tc.tenant_id) :
    2 ≤ ((create_tag db tc).2.tags.countP
        (fun x => x.name == tc.name && x.tenant_id == tc.tenant_id)) ∧
    (create_tag db tc).1 ∈ (create_tag db tc).2.tags := by
  constructor
  · have h1 : 1 ≤ db.tags.countP
        (fun x => x.name == tc.name && x.tenant_id == tc.tenant_id) := by
      have := List.countP_pos_iff (p := fun x : Tag =>
        x.name == tc.name && x.tenant_id == tc.tenant_id) (l := db.tags)
      refine this.mpr ⟨t, ht, ?_⟩
      simp [hn, hten]
    simp only [create_tag, List.countP_append]
    have h2 : (List.countP (fun x : Tag => x.name == tc.name && x.tenant_id == tc.tenant_id)
        [{ id := db.nextTagId, name := tc.name, tenant_id := tc.tenant_id }]) = 1 := by
      simp [List.countP_cons]
    omega
  · simp [create_tag]

/-- C4 amended, witness at a concrete store. -/
theorem create_tag_allows_duplicates_witness :
    2 ≤ ((create_tag dbW { name := "dup", tenant_id := 1 }).2.tags.countP
        (fun x => x.name == "dup" && x.tenant_id == 1)) := by
  exact (create_tag_allows_duplicates dbW { name := "dup", tenant_id := 1 }
    ⟨1, "dup", 1⟩ (by decide) rfl rfl).1

/-! ## C6 — name-conflict failures on creation leave the store unchanged -/

/-- C6: when a user with the requested username already exists, `create_user`
fails with `UsernameTaken` and returns the store exactly as it was; when (the
tenant existing) a folder with the requested name already exists in the
requested tenant, `create_folder` fails with `FolderNameTaken` and returns the
store exactly as it was — no entity, user, folder or tag row is created. -/
theorem create_name_conflict_no_mutation (db : DB) (uc : UserCreate) (fc : FolderCreate) :
    ((∃ w ∈ db.users, w.username = uc.username) →
      create_user db uc = (.error .UsernameTaken, db)) ∧
    (check_tenant_exists db fc.tenant_id = .ok () →
      (∃ g ∈ db.folders, g.name = fc.name ∧ g.tenant_id = fc.tenant_id) →
      create_folder db fc = (.error .FolderNameTaken, db)) := by
  constructor
  · rintro ⟨w, hw, hname⟩
    have hfind : db.users.find? (fun u => some uc.username == some u.username) ≠ none := by
      intro hnone
      have := List.find?_eq_none.mp hnone w hw
      simp [hname] at this
    obtain ⟨u0, hu0⟩ := Option.ne_none_iff_exists'.mp hfind
    have hchk : check_username_exists db (some uc.username) none = .error .UsernameTaken := by
      unfold check_username_exists
      rw [hu0]
      simp [optNatTruthy]
    unfold create_user
    rw [hchk]
  · rintro htenant ⟨g, hg, hgname, hgten⟩
    have htaken : check_folder_name_taken db (some fc.name) (some fc.tenant_id) none =
        .error .FolderNameTaken := by
      have hne : (db.folders.filter (fun f =>
          some fc.name == some f.name && some fc.tenant_id == some f.tenant_id)).isEmpty
            = false := by
        simp only [List.isEmpty_eq_false_iff_exists_mem]
        refine ⟨g, List.mem_filter.mpr ⟨hg, ?_⟩⟩
        simp [hgname, hgten]
      simp [check_folder_name_taken, optNatTruthy, hne]
      exact ⟨g, hg, hgname.symm, hgten.symm⟩
    unfold create_folder
    rw [htenant, htaken]

/-- C6 witness: on the concrete store, re-creating the username
"alice@sia.com" and re-creating the folder name "a" in tenant 1 both fail with
the name-taken error and return the store unchanged. -/
theorem create_name_conflict_no_mutation_witness :
    create_user dbW { username := "alice@sia.com", password := "pw123456" } =
      (.error .UsernameTaken, dbW) ∧
    create_folder dbW { name := "a", tenant_id := 1 } =
      (.error .FolderNameTaken, dbW) := by
  refine ⟨(create_name_conflict_no_mutation dbW
      { username := "alice@sia.com", password := "pw123456" }
      { name := "a", tenant_id := 1 }).1
      ⟨⟨2, "alice@sia.com", get_password_hash "alicepass", 3, 4⟩, by decide, rfl⟩,
    (create_name_conflict_no_mutation dbW
      { username := "alice@sia.com", password := "pw123456" }
      { name := "a", tenant_id := 1 }).2 (by rfl)
      ⟨⟨3, "a", 1, some 1, 8⟩, by decide, rfl, rfl⟩⟩

/-! ## C7 — folder creation is not atomic on parent failure -/

/-- The store's entity table never shrinks across `get_root_folder`. -/
theorem get_root_folder_entities_len (db : DB) (tenant_id : Nat) :
    db.entities.length ≤ (get_root_folder db tenant_id).2.entities.length := by
  cases hfind : db.folders.find? (fun f =>
      f.name == "/" && f.tenant_id == tenant_id && f.parent_id.isNone) with
  | some root => simp [get_root_folder, hfind]
  | none =>
      simp [get_root_folder, hfind, create_root_folder, create_entity_auto,
            create_tag, Folder.add_tag]

/-- C7 counterexample: on a store with tenant 1 and no folders, creating a
folder under the nonexistent parent 99 fails with the parent-not-found error,
yet afterwards the store holds two more entities (the folder's and the root's)
and the auto-created root folder — partial state is observable, refuting
atomicity. -/
theorem create_folder_not_atomic_cex :
    (create_folder db7 { name := "x", tenant_id := 1, parent_id := some 99 }).1 =
      .error .FolderNotFound ∧
    (create_folder db7 { name := "x", tenant_id := 1, parent_id := some 99 }).2.entities.length =
      db7.entities.length + 2 ∧
    (create_folder db7 { name := "x", tenant_id := 1, parent_id := some 99 }).2.folders =
      [{ id := 1, name := "/", tenant_id := 1, parent_id := none, entity_id := 3 }] ∧
    (create_folder db7 { name := "x", tenant_id := 1, parent_id := some 99 }).2 ≠ db7 := by
  refine ⟨rfl, rfl, rfl, by decide⟩

/-- C7 amended: the pre-checks (tenant existence, name uniqueness) fail
atomically, returning the store unchanged; but a `ParentNotFound` failure (a
truthy `parent_id` that does not resolve) occurs after the fresh entity was
committed and the root folder fetched-or-created, and returns that mutated
store, whose entity table is strictly larger than the initial one. -/
theorem create_folder_partial_state (db : DB) (fc : FolderCreate) :
    (∀ e, check_tenant_exists db fc.tenant_id = .error e →
      create_folder db fc = (.error e, db)) ∧
    (check_tenant_exists db fc.tenant_id = .ok () →
      ∀ e, check_folder_name_taken db (some fc.name) (some fc.tenant_id) none = .error e →
      create_folder db fc = (.error e, db)) ∧
    (check_tenant_exists db fc.tenant_id = .ok () →
      check_folder_name_taken db (some fc.name) (some fc.tenant_id) none = .ok () →
      optNatTruthy fc.parent_id = true →
      ∀ e, check_folder_exist
          (get_root_folder (create_entity_auto db).2 fc.tenant_id).2
          (fc.parent_id.getD 0) = .error e →
      create_folder db fc =
        (.error e, (get_root_folder (create_entity_auto db).2 fc.tenant_id).2) ∧
      db.entities.length <
        (get_root_folder (create_entity_auto db).2 fc.tenant_id).2.entities.length) := by
  refine ⟨?_, ?_, ?_⟩
  · intro e he
    simp [create_folder, he]
  · intro ht e he
    simp [create_folder, ht, he]
  · intro ht hn hp e he
    constructor
    · simp [create_folder, ht, hn, hp, he]
    · have h1 : (create_entity_auto db).2.entities.length = db.entities.length + 1 := by
        simp [create_entity_auto]
      have h2 := get_root_folder_entities_len (create_entity_auto db).2 fc.tenant_id
      omega

/-- C7 amended, witness at the concrete store: the parent-not-found branch at a
concrete input, with the strict entity-count growth. -/
theorem create_folder_partial_state_witness :
    create_folder db7 { name := "x", tenant_id := 1, parent_id := some 99 } =
      (.error .FolderNotFound,
        (get_root_folder (create_entity_auto db7).2 1).2) ∧
    db7.entities.length <
      (get_root_folder (create_entity_auto db7).2 1).2.entities.length := by
  exact (create_folder_partial_state db7
      { name := "x", tenant_id := 1, parent_id := some 99 }).2.2
    (by rfl) (by rfl) (by rfl) AppError.FolderNotFound (by rfl)

/-! ## C8 — password validation measures the stripped length -/

/-- C8 counterexample: the password `"   12345"` has length 8, yet user
creation fails with the invalid-password error, because the source checks
`len(password.strip()) >= 8` — refuting "any password of length at least 8
passes". -/
theorem password_length_cex :
    ("   12345".length = 8) ∧
    check_invalid_password "   12345" = .error .UserInvalidPassword ∧
    create_user dbW { username := "carol@sia.com", password := "   12345" } =
      (.error .UserInvalidPassword, dbW) := by
  refine ⟨by decide, by rfl, by rfl⟩

/-- C8 amended: `check_invalid_password` accepts exactly the passwords whose
whitespace-stripped form has length at least 8, and `create_user` (when the
username is free) fails with the invalid-password error exactly on the others. -/
theorem check_invalid_password_trim (p : String) (db : DB) (uc : UserCreate) :
    (check_invalid_password p = .ok () ↔ 8 ≤ (pyStrip p).length) ∧
    (check_invalid_password p = .error .UserInvalidPassword ↔ (pyStrip p).length < 8) ∧
    (check_username_exists db (some uc.username) none = .ok () →
      (pyStrip uc.password).length < 8 →
      create_user db uc = (.error .UserInvalidPassword, db)) := by
  refine ⟨?_, ?_, ?_⟩
  · constructor
    · intro h
      by_contra hlt
      simp [check_invalid_password, hlt] at h
    · intro h
      simp [check_invalid_password, h]
  · constructor
    · intro h
      by_contra hge
      push_neg at hge
      simp [check_invalid_password, hge] at h
    · intro h
      have : ¬ 8 ≤ (pyStrip p).length := by omega
      simp [check_invalid_password, this]
  · intro hu hlen
    have hpw : check_invalid_password uc.password = .error .UserInvalidPassword := by
      have : ¬ 8 ≤ (pyStrip uc.password).length := by omega
      simp [check_invalid_password, this]
    simp [create_user, hu, hpw]

/-- C8 amended, witness at concrete inputs. -/
theorem check_invalid_password_trim_witness :
    check_invalid_password "pw123456" = .ok () ∧
    create_user dbW { username := "carol@sia.com", password := "   1234" } =
      (.error .UserInvalidPassword, dbW) := by
  refine ⟨(check_invalid_password_trim "pw123456" dbW
      { username := "carol@sia.com", password := "   1234" }).1.mpr (by decide),
    (check_invalid_password_trim "pw123456" dbW
      { username := "carol@sia.com", password := "   1234" }).2.2 (by rfl) (by decide)⟩

/-! ## C2 — tenant scoping of the folder listing -/

/-- C2: for a resolved user, `get_folders` returns all root folders (null
parent) when the user is admin; exactly the root folders of the user's
member tenants when the user is non-admin with at least one tenant; and the
`UserTenantNotAssigned` error when the user belongs to no tenant. -/
theorem get_folders_scoping (db : DB) (user_id : Nat) (u : User)
    (hu : get_user db user_id = .ok u) :
    (u.is_admin = true →
      ∃ l, get_folders db user_id = .ok (some l) ∧
        ∀ f, f ∈ l ↔ (f ∈ db.folders ∧ f.parent_id = none)) ∧
    (u.is_admin = false → User.tenants db u ≠ [] →
      ∃ l, get_folders db user_id = .ok (some l) ∧
        ∀ f, f ∈ l ↔ (f ∈ db.folders ∧ f.parent_id = none ∧
          ∃ t ∈ db.tenants, t.id = f.tenant_id ∧ (t.id, u.id) ∈ db.memberships)) ∧
    (u.is_admin = false → User.tenants db u = [] →
      get_folders db user_id = .error .UserTenantNotAssigned) := by
  have hmain : get_folders db user_id =
      (if u.is_admin then
        .ok (some (db.folders.filter fun f => f.parent_id.isNone))
      else
        if !(User.tenants db u).isEmpty then
          let tenant_ids := User.get_tenants_ids db u
          if !tenant_ids.isEmpty then
            .ok (some (db.folders.filter fun f =>
              tenant_ids.contains f.tenant_id && f.parent_id.isNone))
          else .ok none
        else .error .UserTenantNotAssigned) := by
    unfold get_folders
    rw [hu]
  refine ⟨?_, ?_, ?_⟩
  · intro hadmin
    refine ⟨db.folders.filter (fun f => f.parent_id.isNone), ?_, ?_⟩
    · rw [hmain, if_pos hadmin]
    · intro f
      simp [List.mem_filter, Option.isNone_iff_eq_none]
  · intro hadmin hne
    have hids : (User.get_tenants_ids db u).isEmpty = false := by
      unfold User.get_tenants_ids
      cases hcase : User.tenants db u with
      | nil => exact absurd hcase hne
      | cons a l => simp
    have hemp : (User.tenants db u).isEmpty = false := by
      cases hcase : User.tenants db u with
      | nil => exact absurd hcase hne
      | cons a l => simp
    refine ⟨db.folders.filter (fun f =>
      (User.get_tenants_ids db u).contains f.tenant_id && f.parent_id.isNone), ?_, ?_⟩
    · rw [hmain, if_neg (by simp [hadmin]), hemp]
      simp [hids]
    · intro f
      simp only [List.mem_filter, Bool.and_eq_true, Option.isNone_iff_eq_none,
        User.get_tenants_ids, User.tenants, List.contains_iff_exists_mem_beq,
        List.mem_map, List.mem_filter, beq_iff_eq]
      constructor
      · rintro ⟨hf, ⟨i, ⟨t, ⟨ht, hm⟩, hi⟩, hfi⟩, hp⟩
        exact ⟨hf, hp, t, ht, by omega, by simpa using hm⟩
      · rintro ⟨hf, hp, t, ht, hti, hm⟩
        exact ⟨hf, ⟨t.id, ⟨t, ⟨ht, by simpa using hm⟩, rfl⟩, by omega⟩, hp⟩
  · intro hadmin hnil
    rw [hmain, if_neg (by simp [hadmin])]
    simp [hnil]

/-- C2 witness: on the concrete store, the admin sees both roots, the member
of tenant 1 sees exactly tenant 1's root, and the tenant-less user gets the
`UserTenantNotAssigned` error. -/
theorem get_folders_scoping_witness :
    get_folders dbW 3 = .error .UserTenantNotAssigned ∧
    (∃ l, get_folders dbW 2 = .ok (some l) ∧
      ∀ f, f ∈ l ↔ (f ∈ dbW.folders ∧ f.parent_id = none ∧
        ∃ t ∈ dbW.tenants, t.id = f.tenant_id ∧ (t.id, 2) ∈ dbW.memberships)) := by
  refine ⟨(get_folders_scoping dbW 3
      ⟨3, "bob@sia.com", get_password_hash "bobpass", 3, 5⟩ (by rfl)).2.2
      (by rfl) (by rfl), ?_⟩
  exact (get_folders_scoping dbW 2
      ⟨2, "alice@sia.com", get_password_hash "alicepass", 3, 4⟩ (by rfl)).2.1
      (by rfl) (by decide)

/-! ## C9 — uniqueness checks on update -/

/-- C9 counterexample: folder 4 ("b") of tenant 1 is renamed to "a", the name
of folder 3 in the same tenant, with a patch that omits `tenant_id`; the update
succeeds with no `FolderNameTaken` and the store ends up with two folders named
"a" in tenant 1 — refuting that such an update always raises the conflict. -/
theorem update_folder_name_check_skipped_cex :
    (update_folder dbW ⟨4, "b", 1, some 1, 9⟩ { name := some "a" }).1 =
      .ok ⟨4, "a", 1, some 1, 9⟩ ∧
    ((update_folder dbW ⟨4, "b", 1, some 1, 9⟩ { name := some "a" }).2.folders.filter
        (fun f => f.name == "a" && f.tenant_id == 1)).length = 2 := by
  refine ⟨rfl, rfl⟩

/-- C9 amended: the uniqueness checks exclude the object being updated —
`check_username_exists` accepts exactly when the found user is the one being
updated, and `check_folder_name_taken` with the folder's own id accepts exactly
when every same-name same-tenant folder is that folder; but the folder name
check is skipped entirely when the update patch omits `tenant_id` (the check
then compares against a null tenant and matches nothing), so such an update
never raises `FolderNameTaken` even when the new name is taken. -/
theorem update_uniqueness_checks (db : DB) :
    (∀ n uid w, db.users.find? (fun u => some n == some u.username) = some w →
      (check_username_exists db (some n) (some uid) = .ok () ↔ (uid = w.id ∧ uid ≠ 0))) ∧
    (∀ n t fid, fid ≠ 0 →
      (check_folder_name_taken db (some n) (some t) (some fid) = .ok () ↔
        ∀ g ∈ db.folders, g.name = n → g.tenant_id = t → g.id = fid)) ∧
    (∀ n fid, check_folder_name_taken db n none fid = .ok ()) ∧
    (∀ f upd, upd.tenant_id = none →
      (update_folder db f upd).1 ≠ .error .FolderNameTaken) := by
  refine ⟨?_, ?_, ?_, ?_⟩
  · intro n uid w hfind
    unfold check_username_exists
    rw [hfind]
    by_cases h0 : uid = 0
    · subst h0
      simp [optNatTruthy]
    · by_cases hw : uid = w.id
      · subst hw
        simp [optNatTruthy, h0]
      · simp [optNatTruthy, h0, hw]
  · intro n t fid hfid
    unfold check_folder_name_taken
    simp only [optNatTruthy, Option.getD_some, bne_iff_ne, ne_eq, hfid,
      not_false_eq_true, if_true]
    rw [List.filter_filter]
    constructor
    · intro h g hg hgn hgt
      by_contra hne
      have hmem : g ∈ db.folders.filter (fun f =>
          some f.id != some fid &&
            (some n == some f.name && some t == some f.tenant_id)) := by
        refine List.mem_filter.mpr ⟨hg, ?_⟩
        simp [hgn, hgt, hne]
      rcases hemp : (db.folders.filter (fun f =>
          some f.id != some fid &&
            (some n == some f.name && some t == some f.tenant_id))).isEmpty with _ | _
      · rw [hemp] at h
        simp at h
      · rw [List.isEmpty_iff] at hemp
        rw [hemp] at hmem
        simp at hmem
    · intro h
      have hnil : db.folders.filter (fun f =>
          some f.id != some fid &&
            (some n == some f.name && some t == some f.tenant_id)) = [] := by
        rw [List.filter_eq_nil_iff]
        intro g hg hall
        simp only [Bool.and_eq_true, beq_iff_eq, Option.some.injEq, bne_iff_ne,
          ne_eq, Option.some.injEq] at hall
        exact hall.1 (h g hg hall.2.1.symm hall.2.2.symm)
      rw [hnil]
      rfl
  · intro n fid
    unfold check_folder_name_taken
    have hnil : db.folders.filter (fun f =>
        n == some f.name && (none : Option Nat) == some f.tenant_id) = [] := by
      rw [List.filter_eq_nil_iff]
      intro g hg
      simp
    rw [hnil]
    cases hb : optNatTruthy fid <;> simp
  · intro f upd hnone
    cases hf : db.folders.find? (fun x => x.id == f.id) with
    | none =>
        simp [update_folder, get_folder, hf]
    | some folder =>
        have hok : check_folder_name_taken db upd.name none (some folder.id) = .ok () := by
          unfold check_folder_name_taken
          have hnil : db.folders.filter (fun x =>
              upd.name == some x.name && (none : Option Nat) == some x.tenant_id) = [] := by
            rw [List.filter_eq_nil_iff]
            intro g hg
            simp
          rw [hnil]
          cases hb : optNatTruthy (some folder.id) <;> simp
        simp [update_folder, get_folder, hf, hnone, optNatTruthy, hok]

/-- C9 amended, witness at the concrete store: keeping one's own username
passes the check, and the folder name check with a null tenant matches
nothing. -/
theorem update_uniqueness_checks_witness :
    check_username_exists dbW (some "alice@sia.com") (some 2) = .ok () ∧
    check_folder_name_taken dbW (some "b") none (some 999) = .ok () := by
  refine ⟨((update_uniqueness_checks dbW).1 "alice@sia.com" 2
      ⟨2, "alice@sia.com", get_password_hash "alicepass", 3, 4⟩ (by rfl)).mpr
      ⟨rfl, by decide⟩,
    (update_uniqueness_checks dbW).2.2.1 (some "b") (some 999)⟩

/-! ## C10 — default role assignment and creation schema -/

/-- C10: when creation succeeds, the created user carries the id of the role
named "user" looked up by `create_user` (the caller supplies no role), and the
`UserCreate` payload validation accepts exactly the field sets containing
`username` and `password` and nothing else. -/
theorem create_user_default_role (db : DB) (uc : UserCreate) (r : Role)
    (hr : db.roles.find? (fun x => x.name == "user") = some r)
    (hname : check_username_exists db (some uc.username) none = .ok ())
    (hpw : check_invalid_password uc.password = .ok ()) :
    (∃ u, (create_user db uc).1 = .ok u ∧ u.role_id = r.id ∧ r.name = "user" ∧
      (create_user db uc).2.users = db.users ++ [u]) ∧
    (∀ fields, userCreateAccepts fields = true ↔
      ("username" ∈ fields ∧ "password" ∈ fields ∧
        ∀ f ∈ fields, f = "username" ∨ f = "password")) := by
  constructor
  · have hrname : r.name = "user" := by
      have hx := List.find?_some hr
      simpa using hx
    refine ⟨{ id := db.nextUserId, username := uc.username,
              hashed_password := get_password_hash uc.password,
              role_id := r.id, entity_id := db.nextEntityId }, ?_, rfl, hrname, ?_⟩
    · simp [create_user, hname, hpw, hr, create_entity_auto]
    · simp [create_user, hname, hpw, hr, create_entity_auto]
  · intro fields
    simp only [userCreateAccepts, userCreateFields, Bool.and_eq_true,
      List.all_eq_true, List.elem_iff, List.mem_cons, List.not_mem_nil, or_false]
    constructor
    · rintro ⟨h1, h2⟩
      refine ⟨h1 "username" (Or.inl rfl), h1 "password" (Or.inr rfl), h2⟩
    · rintro ⟨h1, h2, h3⟩
      refine ⟨?_, h3⟩
      rintro f (rfl | rfl)
      · exact h1
      · exact h2

/-- C10 witness: on the concrete store, creating "carol@sia.com" yields a user
with the id of the role named "user" (id 3), and the field-set facts at
concrete lists. -/
theorem create_user_default_role_witness :
    (∃ u, (create_user dbW { username := "carol@sia.com", password := "pw123456" }).1 =
        .ok u ∧ u.role_id = 3) ∧
    userCreateAccepts ["username", "password"] = true ∧
    userCreateAccepts ["username", "password", "role_id"] = false := by
  have h := create_user_default_role dbW
    { username := "carol@sia.com", password := "pw123456" } ⟨3, "user"⟩
    (by rfl) (by rfl) (by rfl)
  obtain ⟨⟨u, hu, hrole, -, -⟩, hfields⟩ := h
  refine ⟨⟨u, hu, hrole⟩, by rfl, ?_⟩
  by_contra hacc
  have : userCreateAccepts ["username", "password", "role_id"] = true := by
    revert hacc
    cases userCreateAccepts ["username", "password", "role_id"] <;> simp
  have h3 := ((hfields ["username", "password", "role_id"]).mp this).2.2 "role_id" (by simp)
  simp at h3

/-! ## C1 — refresh-token rotation is forward-only -/

/-- Marking one token superseded does not change any token's value, so the
lookup of a value inside the marked list finds the marked image of what the
original lookup found. -/
theorem find?_value_marked (tokens : List RefreshToken) (value : Nat)
    (t0 : RefreshToken) (newId : Nat)
    (hfind : tokens.find? (fun x => x.value == value) = some t0) :
    (tokens.map (fun x =>
        if x.id == t0.id then { x with replaced_by := some newId } else x)).find?
      (fun x => x.value == value) = some { t0 with replaced_by := some newId } := by
  have hp : ((fun x : RefreshToken => x.value == value) ∘
      (fun x => if x.id == t0.id then { x with replaced_by := some newId } else x)) =
      (fun x : RefreshToken => x.value == value) := by
    funext x
    by_cases hx : (x.id == t0.id) = true <;> simp [Function.comp, hx]
  rw [List.find?_map, hp, hfind]
  simp

/-- C1: once `rotate` has succeeded on a presented value, presenting the same
value to `rotate` against the resulting store fails with `InvalidRefreshToken`
at any later time and for any lifetime — the rotated-away value is not
accepted again (the old row now carries `replaced_by` and is rejected by
`valid_refresh_token`). -/
theorem rotate_forward_only (st : TokenStore) (value now lifetime v' : Nat)
    (st' : TokenStore) (h : rotate st value now lifetime = .ok (v', st')) :
    ∀ now2 lifetime2 : Nat, rotate st' value now2 lifetime2 =
      .error .InvalidRefreshToken := by
  intro now2 lifetime2
  unfold rotate at h
  split at h
  · cases h
  next t0 hvt =>
    have hst' : st' = (create_refresh_token st t0.user_id now lifetime (some t0)).2 := by
      injection h with h1
      exact (congrArg Prod.snd h1).symm
    unfold valid_refresh_token at hvt
    split at hvt
    · cases hvt
    next t1 hfind =>
      split at hvt
      next hc =>
        injection hvt with ht
        subst ht
        subst hst'
        unfold rotate valid_refresh_token create_refresh_token
        simp only []
        rw [List.find?_append, find?_value_marked st.tokens value t1 st.nextId hfind]
        simp
      · cases hvt

/-- C1 witness: a concrete one-token store; after the rotation (computed
explicitly) the old value 5 is rejected. -/
theorem rotate_forward_only_witness :
    rotate { tokens := [{ id := 1, user_id := 7, value := 5, expires_at := 100 }],
             nextId := 2 } 5 0 10 =
      .ok (6, { tokens := [{ id := 1, user_id := 7, value := 5, expires_at := 100,
                             replaced_by := some 2 },
                           { id := 2, user_id := 7, value := 6, expires_at := 10 }],
                nextId := 3 }) ∧
    rotate { tokens := [{ id := 1, user_id := 7, value := 5, expires_at := 100,
                          replaced_by := some 2 },
                        { id := 2, user_id := 7, value := 6, expires_at := 10 }],
              nextId := 3 } 5 1 20 = .error .InvalidRefreshToken := by
  refine ⟨by rfl, ?_⟩
  exact rotate_forward_only
    { tokens := [{ id := 1, user_id := 7, value := 5, expires_at := 100 }], nextId := 2 }
    5 0 10 6
    { tokens := [{ id := 1, user_id := 7, value := 5, expires_at := 100,
                   replaced_by := some 2 },
                 { id := 2, user_id := 7, value := 6, expires_at := 10 }],
      nextId := 3 }
    (by rfl) 1 20

end SiaSpec
